import Mathlib

/-!
A model of `main.go` of dummy-otel-generator.

The program is glue around the OpenTelemetry SDK.  The embedding keeps the
statements of `main.go` one for one and records every call the program makes
on the outside world as an `Event`, in program order.  What the libraries
answer (whether an exporter constructor fails, which error the instrument
constructor returns, the schema URL constant) is not in the repository and is
taken as a parameter, the environment `Env`.

Go semantics the model relies on:
* `log.Fatal` / `log.Fatalf` write the message and call `os.Exit(1)`;
* `os.Exit` ends the process at once, deferred calls are not run;
* deferred calls run, last registered first, when the function returns;
* `for { select { case <-ticker.C: ... } }` runs its body once per tick and
  has no exit; a run is observed after a number of delivered ticks;
* a result bound to the blank identifier `_` is dropped; an expression
  statement drops whatever results its call has.

Signatures of the libraries the model relies on: the exporter constructors,
`Int64Counter` and `Shutdown` have an `error` result; `Tracer.Start` returns a
context and a span; `otel.Set*`, `Int64Counter.Add`, `log.Println`,
`slog.Logger.InfoContext`, `Span.End` and `Ticker.Stop` have no result.
-/

namespace DummyOtel

/-! ## Data model -/

/-- An error value, identified with the text `%v` prints for it. -/
abbrev Err := String

/-- The three telemetry signals, one exporter constructor each. -/
inductive Signal
  | trace
  | metric
  | log
deriving DecidableEq, Repr

/-- An exporter handle as returned by an `otlp*http.New` constructor. -/
structure Exporter where
  handle : Nat
deriving DecidableEq, Repr

/-- Attribute keys of package `semconv` used by the program. -/
inductive AttrKey
  | ServiceNameKey
  | ServiceVersionKey
deriving DecidableEq, Repr

/-- Value of `resource.NewWithAttributes(schemaURL, attrs...)`. -/
structure Resource where
  schemaURL : String
  attrs : List (AttrKey × String)
deriving DecidableEq, Repr

/-- Value of `trace.NewTracerProvider(WithResource(r), WithBatcher(e))`. -/
structure TracerProvider where
  resource : Resource
  batcher : Exporter
deriving DecidableEq, Repr

/-- Value of `metric.NewMeterProvider(WithResource(r), WithReader(NewPeriodicReader(e)))`. -/
structure MeterProvider where
  resource : Resource
  periodicReader : Exporter
deriving DecidableEq, Repr

/-- Value of `log.NewLoggerProvider(WithResource(r), WithProcessor(NewBatchProcessor(e)))`. -/
structure LoggerProvider where
  resource : Resource
  batchProcessor : Exporter
deriving DecidableEq, Repr

/-- The propagators of package `propagation` named in the program. -/
inductive Propagator
  | TraceContext
  | Baggage
deriving DecidableEq, Repr

/-- Value of `propagation.NewCompositeTextMapPropagator(ps...)`. -/
structure TextMapPropagator where
  composite : List Propagator
deriving DecidableEq, Repr

/-- A span handle; `seq` counts the spans started by the process so far. -/
structure Span where
  seq : Nat
deriving DecidableEq, Repr

/-- A `context.Context`: the background context, or a context derived from a
parent by storing a span in it (what `Tracer.Start` returns). -/
inductive Ctx
  | Background
  | withSpan (parent : Ctx) (span : Span)
deriving DecidableEq, Repr

/-- The span a context carries, if any. -/
def Ctx.span? : Ctx → Option Span
  | .Background => none
  | .withSpan _ s => some s

/-- Instrument returned by `provider.Meter(meter).Int64Counter(name)`. -/
structure Counter where
  provider : MeterProvider
  meter : String
  name : String
deriving DecidableEq, Repr

/-- Logger returned by `otelslog.NewLogger(name, WithLoggerProvider(provider))`. -/
structure Logger where
  name : String
  provider : LoggerProvider
deriving DecidableEq, Repr

/-- Severity levels of `log/slog`. -/
inductive Level
  | debug
  | info
  | warn
  | error
deriving DecidableEq, Repr

/-- A call registered with `defer` in `main`. -/
inductive Deferred
  | TracerShutdown (p : TracerProvider) (ctx : Ctx)
  | MeterShutdown (p : MeterProvider) (ctx : Ctx)
  | LoggerShutdown (p : LoggerProvider) (ctx : Ctx)
  | TickerStop
deriving DecidableEq, Repr

/-- What the program does to the outside world, in program order. -/
inductive Event
  /-- `otlp{trace,metric,log}http.New(ctx, WithEndpoint(endpoint))` is called. -/
  | exporterNew (signal : Signal) (endpoint : String)
  /-- `otel.SetTracerProvider(p)`. -/
  | setTracerProvider (p : TracerProvider)
  /-- `otel.SetTextMapPropagator(p)`. -/
  | setTextMapPropagator (p : TextMapPropagator)
  /-- `otel.SetMeterProvider(p)`. -/
  | setMeterProvider (p : MeterProvider)
  /-- `provider.Meter(meter).Int64Counter(name)`. -/
  | int64Counter (provider : MeterProvider) (meter : String) (name : String)
  /-- A message handed to the standard logger of package `log`. -/
  | stdLog (msg : String)
  /-- `os.Exit(code)`. -/
  | osExit (code : Nat)
  /-- `time.NewTicker(seconds * time.Second)`. -/
  | newTicker (seconds : Nat)
  /-- `otel.Tracer(tracer).Start(parent, name)` on the current global
  tracer provider, yielding `span`. -/
  | spanStart (provider : Option TracerProvider) (tracer : String) (parent : Ctx)
      (name : String) (span : Span)
  /-- `counter.Add(ctx, incr)`. -/
  | counterAdd (counter : Counter) (ctx : Ctx) (incr : Int)
  /-- A record sent through the OpenTelemetry logger. -/
  | otelLog (logger : Logger) (level : Level) (ctx : Ctx) (msg : String)
  /-- `span.End()`. -/
  | spanEnd (span : Span)
  /-- A deferred call is run. -/
  | runDeferred (d : Deferred)
deriving DecidableEq, Repr

/-- Process-wide defaults of the OpenTelemetry API.  `loggerProvider` is the
default of `otel/log/global`; no statement of the program assigns it. -/
structure Globals where
  tracerProvider : Option TracerProvider
  textMapPropagator : Option TextMapPropagator
  meterProvider : Option MeterProvider
  loggerProvider : Option LoggerProvider
deriving DecidableEq, Repr

/-- State outside `main`: the events so far, the process-wide defaults and the
number of spans started. -/
structure World where
  out : List Event
  globals : Globals
  spans : Nat
deriving DecidableEq, Repr

/-- How far the process got. -/
inductive Status
  /-- Still executing (in a finished observation: blocked on the ticker). -/
  | running
  /-- Ended by `os.Exit(code)`. -/
  | exited (code : Nat)
  /-- `main` returned. -/
  | returned
deriving DecidableEq, Repr

/-- The process: the world, the deferred calls of `main` still pending (most
recent first), the error results `main` was handed and dropped without
looking at them (each with the call it came from, oldest first) and the
status. -/
structure Proc where
  world : World
  defers : List Deferred
  discarded : List (Event × Option Err)
  status : Status
deriving DecidableEq, Repr

/-- What the libraries answer.  Not part of the repository. -/
structure Env where
  /-- The constant `semconv.SchemaURL`. -/
  SchemaURL : String
  /-- Result of `otlptracehttp.New(ctx, WithEndpoint(endpoint))`. -/
  otlptracehttpNew : String → Except Err Exporter
  /-- Result of `otlpmetrichttp.New(ctx, WithEndpoint(endpoint))`. -/
  otlpmetrichttpNew : String → Except Err Exporter
  /-- Result of `otlploghttp.New(ctx, WithEndpoint(endpoint))`. -/
  otlploghttpNew : String → Except Err Exporter
  /-- Error result of `Meter(meter).Int64Counter(name)`; the SDK hands back a
  usable instrument next to it in either case. -/
  Int64CounterErr : String → String → Option Err
  /-- Error result of the `Shutdown(ctx)` of a provider. -/
  ShutdownErr : Deferred → Option Err

/-! ## Library calls -/

/-- Append one event. -/
def World.emit (w : World) (e : Event) : World :=
  { w with out := w.out ++ [e] }

/-- Start of the process: nothing emitted, no default installed. -/
def World.start : World :=
  { out := [], globals := ⟨none, none, none, none⟩, spans := 0 }

/-- Start of `main`. -/
def Proc.start : Proc :=
  { world := World.start, defers := [], discarded := [], status := .running }

/-- The call `otel.SetTracerProvider`. -/
def SetTracerProvider (p : TracerProvider) (w : World) : World :=
  { w.emit (.setTracerProvider p) with
    globals := { w.globals with tracerProvider := some p } }

/-- The call `otel.SetTextMapPropagator`. -/
def SetTextMapPropagator (p : TextMapPropagator) (w : World) : World :=
  { w.emit (.setTextMapPropagator p) with
    globals := { w.globals with textMapPropagator := some p } }

/-- The call `otel.SetMeterProvider`. -/
def SetMeterProvider (p : MeterProvider) (w : World) : World :=
  { w.emit (.setMeterProvider p) with
    globals := { w.globals with meterProvider := some p } }

/-- The call `os.Exit`: the process ends, pending deferred calls stay pending. -/
def osExit (code : Nat) (p : Proc) : Proc :=
  { p with world := p.world.emit (.osExit code), status := .exited code }

/-- The call `log.Fatal(msg)` (and `log.Fatalf` once formatted): print, then
`os.Exit(1)`. -/
def Fatal (msg : String) (p : Proc) : Proc :=
  osExit 1 { p with world := p.world.emit (.stdLog msg) }

/-- The statement `defer d`. -/
def defer (d : Deferred) (p : Proc) : Proc :=
  { p with defers := d :: p.defers }

/-- An error result that is dropped: bound to `_`, or the result of a call
used as a statement.  The process goes on whatever the value is. -/
def drop (call : Event) (err : Option Err) (p : Proc) : Proc :=
  { p with discarded := p.discarded ++ [(call, err)] }

/-- One deferred call is run.  `defer` drops the results of the call: the
`error` of a `Shutdown`; `Ticker.Stop` has none. -/
def runOne (env : Env) (p : Proc) (d : Deferred) : Proc :=
  let p := { p with world := p.world.emit (.runDeferred d) }
  match d with
  | .TickerStop => p
  | _ => drop (.runDeferred d) (env.ShutdownErr d) p

/-- Return from a function: its pending deferred calls run, most recent first.
`main` has no `return` and its loop has no exit, so no path of `main` gets
here. -/
def returnMain (env : Env) (p : Proc) : Proc :=
  { p.defers.foldl (runOne env) p with defers := [], status := .returned }

/-- The call `provider.Meter(meter).Int64Counter(name)`: instrument and error. -/
def Int64Counter (env : Env) (provider : MeterProvider) (meter name : String)
    (w : World) : (Counter × Option Err) × World :=
  ((⟨provider, meter, name⟩, env.Int64CounterErr meter name),
   w.emit (.int64Counter provider meter name))

/-- The call `otel.Tracer(tracer).Start(parent, name)`: a new span and the
context derived from `parent` that carries it. -/
def TracerStart (tracer : String) (parent : Ctx) (name : String) (w : World) :
    (Ctx × Span) × World :=
  let span : Span := ⟨w.spans⟩
  ((.withSpan parent span, span),
   { w.emit (.spanStart w.globals.tracerProvider tracer parent name span) with
     spans := w.spans + 1 })

/-- The call `counter.Add(ctx, incr)`.  `Add` has no result: the call hands
nothing back, neither a value nor an error. -/
def CounterAdd (counter : Counter) (ctx : Ctx) (incr : Int) (w : World) : World :=
  w.emit (.counterAdd counter ctx incr)

/-- The call `log.Println(msg)`; no result. -/
def Println (msg : String) (w : World) : World :=
  w.emit (.stdLog msg)

/-- The call `logger.InfoContext(ctx, msg)`; no result. -/
def InfoContext (logger : Logger) (ctx : Ctx) (msg : String) (w : World) : World :=
  w.emit (.otelLog logger .info ctx msg)

/-- The call `span.End()`; no result. -/
def SpanEnd (span : Span) (w : World) : World :=
  w.emit (.spanEnd span)

/-! ## The program -/

/-- The package variable `serviceName`. -/
def serviceName : String := "dummy-otel-generator"

/-- The package variable `serviceVersion`. -/
def serviceVersion : String := "0.0.1"

/-- The function `initTracer`; `.error e` stands for Go's `(nil, e)`, `.ok p`
for `(p, nil)`. -/
def initTracer (env : Env) (endpoint : String) (w : World) :
    Except Err TracerProvider × World :=
  let w := w.emit (.exporterNew .trace endpoint)
  match env.otlptracehttpNew endpoint with
  | .error err => (.error err, w)
  | .ok exporter =>
    let traceProvider : TracerProvider :=
      { resource :=
          { schemaURL := env.SchemaURL,
            attrs := [(.ServiceNameKey, serviceName), (.ServiceVersionKey, serviceVersion)] },
        batcher := exporter }
    let w := SetTracerProvider traceProvider w
    let w := SetTextMapPropagator ⟨[.TraceContext, .Baggage]⟩ w
    (.ok traceProvider, w)

/-- The function `initMeter`. -/
def initMeter (env : Env) (endpoint : String) (w : World) :
    Except Err MeterProvider × World :=
  let w := w.emit (.exporterNew .metric endpoint)
  match env.otlpmetrichttpNew endpoint with
  | .error err => (.error err, w)
  | .ok exporter =>
    let metricProvider : MeterProvider :=
      { resource :=
          { schemaURL := env.SchemaURL,
            attrs := [(.ServiceNameKey, serviceName), (.ServiceVersionKey, serviceVersion)] },
        periodicReader := exporter }
    let w := SetMeterProvider metricProvider w
    (.ok metricProvider, w)

/-- The function `initLogger`. -/
def initLogger (env : Env) (endpoint : String) (w : World) :
    Except Err LoggerProvider × World :=
  let w := w.emit (.exporterNew .log endpoint)
  match env.otlploghttpNew endpoint with
  | .error err => (.error err, w)
  | .ok exporter =>
    let loggerProvider : LoggerProvider :=
      { resource :=
          { schemaURL := env.SchemaURL,
            attrs := [(.ServiceNameKey, serviceName), (.ServiceVersionKey, serviceVersion)] },
        batchProcessor := exporter }
    (.ok loggerProvider, w)

/-- The body of `case <-ticker.C:` in `main`.  The four calls after the span
start are statements without result, so the body hands `main` nothing to bind
or to drop; it acts on the world only. -/
def tick (counter : Counter) (logger : Logger) (ctx : Ctx) (w : World) : World :=
  match TracerStart "dummy-otel-app" ctx "IncrementCounter" w with
  | ((ctx2, span), w) =>
    let w := CounterAdd counter ctx2 1 w
    let w := Println "Info: Counter incremented" w
    let w := InfoContext logger ctx2 "Counter incremented" w
    SpanEnd span w

/-- The loop `for { select { case <-ticker.C: ... } }` observed after `ticks`
ticks. -/
def loop (counter : Counter) (logger : Logger) (ctx : Ctx) : Nat → World → World
  | 0, w => w
  | n + 1, w => tick counter logger ctx (loop counter logger ctx n w)

/-- The function `main`, run on `os.Args = osArgs` and observed once the
ticker has delivered `ticks` ticks. -/
def main (env : Env) (osArgs : List String) (ticks : Nat) : Proc :=
  let p := Proc.start
  if h : osArgs.length < 2 then
    Fatal "Usage: otel-app <endpoint>" p
  else
    let endpoint := osArgs.get ⟨1, by omega⟩
    let ctx := Ctx.Background
    match initTracer env endpoint p.world with
    | (.error err, w) => Fatal ("failed to initialize tracer: " ++ err) { p with world := w }
    | (.ok traceProvider, w) =>
      let p := defer (.TracerShutdown traceProvider ctx) { p with world := w }
      match initMeter env endpoint p.world with
      | (.error err, w) => Fatal ("failed to initialize meter: " ++ err) { p with world := w }
      | (.ok metricProvider, w) =>
        let p := defer (.MeterShutdown metricProvider ctx) { p with world := w }
        match Int64Counter env metricProvider "dummy-otel-app" "my_custom_counter" p.world with
        | ((counter, err), w) =>
          -- `counter, _ := ...`: the error goes to the blank identifier
          let p := drop (.int64Counter metricProvider "dummy-otel-app" "my_custom_counter") err
            { p with world := w }
          match initLogger env endpoint p.world with
          | (.error err, w) =>
            Fatal ("failed to initialize logger: " ++ err) { p with world := w }
          | (.ok loggerProvider, w) =>
            let p := defer (.LoggerShutdown loggerProvider ctx) { p with world := w }
            let logger : Logger := ⟨"dummy-otel-app", loggerProvider⟩
            let p := { p with world := p.world.emit (.newTicker 30) }
            let p := defer .TickerStop p
            { p with world := loop counter logger ctx ticks p.world }

/-! ## Observations on a run -/

/-- The exporter constructions of a trace, in order: one per initializer call. -/
def initCalls : List Event → List (Signal × String)
  | [] => []
  | .exporterNew s ep :: es => (s, ep) :: initCalls es
  | _ :: es => initCalls es

/-- The messages handed to the standard logger, in order. -/
def stdLogs : List Event → List String
  | [] => []
  | .stdLog m :: es => m :: stdLogs es
  | _ :: es => stdLogs es

/-- The messages of the records sent through the OpenTelemetry logger, in order. -/
def otelMsgs : List Event → List String
  | [] => []
  | .otelLog _ _ _ m :: es => m :: otelMsgs es
  | _ :: es => otelMsgs es

/-- The sum of the increments issued on the counter called `name`. -/
def counterTotal (name : String) : List Event → Int
  | [] => 0
  | .counterAdd c _ incr :: es =>
    (if c.name = name then incr else 0) + counterTotal name es
  | _ :: es => counterTotal name es

/-- The calls of `Add` in a trace, in order: counter name and increment. -/
def addCalls : List Event → List (String × Int)
  | [] => []
  | .counterAdd c _ incr :: es => (c.name, incr) :: addCalls es
  | _ :: es => addCalls es

/-- Events that only the body of the emission loop issues. -/
def Event.isEmission : Event → Bool
  | .spanStart _ _ _ _ _ => true
  | .counterAdd _ _ _ => true
  | .otelLog _ _ _ _ => true
  | .spanEnd _ => true
  | _ => false

/-- The exporter constructor of a signal. -/
def Env.exporterNew (env : Env) : Signal → String → Except Err Exporter
  | .trace => env.otlptracehttpNew
  | .metric => env.otlpmetrichttpNew
  | .log => env.otlploghttpNew

/-- Position of a signal's initializer in `main`. -/
def Signal.order : Signal → Nat
  | .trace => 0
  | .metric => 1
  | .log => 2

/-- The initializers `main` has called once the one for `k` has been called. -/
def Signal.upTo : Signal → List Signal
  | .trace => [.trace]
  | .metric => [.trace, .metric]
  | .log => [.trace, .metric, .log]

/-- The head of the diagnostic `main` prints when the initializer of a signal fails. -/
def Signal.diagnostic : Signal → String
  | .trace => "failed to initialize tracer: "
  | .metric => "failed to initialize meter: "
  | .log => "failed to initialize logger: "

/-- The resource `resource.NewWithAttributes(semconv.SchemaURL,
ServiceNameKey.String("dummy-otel-generator"), ServiceVersionKey.String("0.0.1"))`. -/
def fixedResource (env : Env) : Resource :=
  { schemaURL := env.SchemaURL,
    attrs := [(.ServiceNameKey, "dummy-otel-generator"), (.ServiceVersionKey, "0.0.1")] }

/-- The world right before the loop when the trace and metric exporters are
`e1` and `e2`. -/
def readyWorld (env : Env) (ep : String) (e1 e2 : Exporter) : World :=
  { out := [.exporterNew .trace ep,
            .setTracerProvider ⟨fixedResource env, e1⟩,
            .setTextMapPropagator ⟨[.TraceContext, .Baggage]⟩,
            .exporterNew .metric ep,
            .setMeterProvider ⟨fixedResource env, e2⟩,
            .int64Counter ⟨fixedResource env, e2⟩ "dummy-otel-app" "my_custom_counter",
            .exporterNew .log ep,
            .newTicker 30],
    globals := ⟨some ⟨fixedResource env, e1⟩, some ⟨[.TraceContext, .Baggage]⟩,
                some ⟨fixedResource env, e2⟩, none⟩,
    spans := 0 }

/-! ## Sample environments -/

/-- Every library call succeeds. -/
def envOk : Env :=
  { SchemaURL := "https://opentelemetry.io/schemas/1.9.0",
    otlptracehttpNew := fun _ => .ok ⟨1⟩,
    otlpmetrichttpNew := fun _ => .ok ⟨2⟩,
    otlploghttpNew := fun _ => .ok ⟨3⟩,
    Int64CounterErr := fun _ _ => none,
    ShutdownErr := fun _ => none }

/-- The trace exporter cannot be built. -/
def envBadTracer : Env :=
  { envOk with otlptracehttpNew := fun _ => .error "invalid endpoint" }

/-- The metric exporter cannot be built. -/
def envBadMeter : Env :=
  { envOk with otlpmetrichttpNew := fun _ => .error "invalid endpoint" }

/-- The log exporter cannot be built. -/
def envBadLogger : Env :=
  { envOk with otlploghttpNew := fun _ => .error "invalid endpoint" }

/-! ## Unfolding `main` case by case -/

/-- The run without an endpoint. -/
theorem main_short (env : Env) (osArgs : List String) (n : Nat)
    (h : osArgs.length < 2) :
    main env osArgs n =
      { world := { out := [.stdLog "Usage: otel-app <endpoint>", .osExit 1],
                   globals := ⟨none, none, none, none⟩, spans := 0 },
        defers := [], discarded := [], status := .exited 1 } := by
  simp [main, h, Fatal, osExit, World.emit, Proc.start, World.start]

/-- The run when the trace exporter cannot be built. -/
theorem main_tracer_err (env : Env) (a ep : String) (rest : List String) (n : Nat)
    (e : Err) (h1 : env.otlptracehttpNew ep = .error e) :
    main env (a :: ep :: rest) n =
      { world := { out := [.exporterNew .trace ep,
                           .stdLog ("failed to initialize tracer: " ++ e), .osExit 1],
                   globals := ⟨none, none, none, none⟩, spans := 0 },
        defers := [], discarded := [], status := .exited 1 } := by
  simp [main, initTracer, h1, Fatal, osExit, World.emit, Proc.start, World.start]

/-- The run when the metric exporter is the first that cannot be built. -/
theorem main_meter_err (env : Env) (a ep : String) (rest : List String) (n : Nat)
    (e1 : Exporter) (e : Err) (h1 : env.otlptracehttpNew ep = .ok e1)
    (h2 : env.otlpmetrichttpNew ep = .error e) :
    main env (a :: ep :: rest) n =
      { world := { out := [.exporterNew .trace ep,
                           .setTracerProvider ⟨fixedResource env, e1⟩,
                           .setTextMapPropagator ⟨[.TraceContext, .Baggage]⟩,
                           .exporterNew .metric ep,
                           .stdLog ("failed to initialize meter: " ++ e), .osExit 1],
                   globals := ⟨some ⟨fixedResource env, e1⟩,
                               some ⟨[.TraceContext, .Baggage]⟩, none, none⟩,
                   spans := 0 },
        defers := [.TracerShutdown ⟨fixedResource env, e1⟩ .Background],
        discarded := [],
        status := .exited 1 } := by
  simp [main, initTracer, initMeter, h1, h2, Fatal, osExit, defer, World.emit, Proc.start,
    World.start, SetTracerProvider, SetTextMapPropagator, fixedResource, serviceName,
    serviceVersion]

/-- The run when the log exporter is the first that cannot be built. -/
theorem main_logger_err (env : Env) (a ep : String) (rest : List String) (n : Nat)
    (e1 e2 : Exporter) (e : Err) (h1 : env.otlptracehttpNew ep = .ok e1)
    (h2 : env.otlpmetrichttpNew ep = .ok e2) (h3 : env.otlploghttpNew ep = .error e) :
    main env (a :: ep :: rest) n =
      { world := { out := [.exporterNew .trace ep,
                           .setTracerProvider ⟨fixedResource env, e1⟩,
                           .setTextMapPropagator ⟨[.TraceContext, .Baggage]⟩,
                           .exporterNew .metric ep,
                           .setMeterProvider ⟨fixedResource env, e2⟩,
                           .int64Counter ⟨fixedResource env, e2⟩ "dummy-otel-app"
                             "my_custom_counter",
                           .exporterNew .log ep,
                           .stdLog ("failed to initialize logger: " ++ e), .osExit 1],
                   globals := ⟨some ⟨fixedResource env, e1⟩,
                               some ⟨[.TraceContext, .Baggage]⟩,
                               some ⟨fixedResource env, e2⟩, none⟩,
                   spans := 0 },
        defers := [.MeterShutdown ⟨fixedResource env, e2⟩ .Background,
                   .TracerShutdown ⟨fixedResource env, e1⟩ .Background],
        discarded := [(.int64Counter ⟨fixedResource env, e2⟩ "dummy-otel-app"
                         "my_custom_counter",
                       env.Int64CounterErr "dummy-otel-app" "my_custom_counter")],
        status := .exited 1 } := by
  simp [main, initTracer, initMeter, initLogger, Int64Counter, h1, h2, h3, Fatal, osExit,
    defer, drop, World.emit, Proc.start, World.start, SetTracerProvider, SetTextMapPropagator,
    SetMeterProvider, fixedResource, serviceName, serviceVersion]

/-- The run when the three exporters are built: the loop on the ready world. -/
theorem main_ready (env : Env) (a ep : String) (rest : List String) (n : Nat)
    (e1 e2 e3 : Exporter) (h1 : env.otlptracehttpNew ep = .ok e1)
    (h2 : env.otlpmetrichttpNew ep = .ok e2) (h3 : env.otlploghttpNew ep = .ok e3) :
    main env (a :: ep :: rest) n =
      { world := loop ⟨⟨fixedResource env, e2⟩, "dummy-otel-app", "my_custom_counter"⟩
                   ⟨"dummy-otel-app", ⟨fixedResource env, e3⟩⟩ .Background n
                   (readyWorld env ep e1 e2),
        defers := [.TickerStop,
                   .LoggerShutdown ⟨fixedResource env, e3⟩ .Background,
                   .MeterShutdown ⟨fixedResource env, e2⟩ .Background,
                   .TracerShutdown ⟨fixedResource env, e1⟩ .Background],
        discarded := [(.int64Counter ⟨fixedResource env, e2⟩ "dummy-otel-app"
                         "my_custom_counter",
                       env.Int64CounterErr "dummy-otel-app" "my_custom_counter")],
        status := .running } := by
  simp [main, initTracer, initMeter, initLogger, Int64Counter, h1, h2, h3,
    defer, drop, World.emit, Proc.start, World.start, SetTracerProvider, SetTextMapPropagator,
    SetMeterProvider, fixedResource, serviceName, serviceVersion, readyWorld]

/-! ## The emission loop -/

/-- The events of one tick. -/
theorem tick_out (c : Counter) (l : Logger) (ctx : Ctx) (w : World) :
    (tick c l ctx w).out = w.out ++
      [.spanStart w.globals.tracerProvider "dummy-otel-app" ctx "IncrementCounter" ⟨w.spans⟩,
       .counterAdd c (.withSpan ctx ⟨w.spans⟩) 1,
       .stdLog "Info: Counter incremented",
       .otelLog l .info (.withSpan ctx ⟨w.spans⟩) "Counter incremented",
       .spanEnd ⟨w.spans⟩] := by
  simp [tick, TracerStart, CounterAdd, Println, InfoContext, SpanEnd, World.emit]

theorem tick_globals (c : Counter) (l : Logger) (ctx : Ctx) (w : World) :
    (tick c l ctx w).globals = w.globals := by
  simp [tick, TracerStart, CounterAdd, Println, InfoContext, SpanEnd, World.emit]

theorem tick_spans (c : Counter) (l : Logger) (ctx : Ctx) (w : World) :
    (tick c l ctx w).spans = w.spans + 1 := by
  simp [tick, TracerStart, CounterAdd, Println, InfoContext, SpanEnd, World.emit]

theorem loop_globals (c : Counter) (l : Logger) (ctx : Ctx) (n : Nat) (w : World) :
    (loop c l ctx n w).globals = w.globals := by
  induction n with
  | zero => rfl
  | succ n ih => rw [loop, tick_globals, ih]

theorem loop_spans (c : Counter) (l : Logger) (ctx : Ctx) (n : Nat) (w : World) :
    (loop c l ctx n w).spans = w.spans + n := by
  induction n with
  | zero => rfl
  | succ n ih => rw [loop, tick_spans, ih]; omega

theorem initCalls_append (xs ys : List Event) :
    initCalls (xs ++ ys) = initCalls xs ++ initCalls ys := by
  induction xs with
  | nil => rfl
  | cons x xs ih => cases x <;> simp [initCalls, ih]

theorem stdLogs_append (xs ys : List Event) :
    stdLogs (xs ++ ys) = stdLogs xs ++ stdLogs ys := by
  induction xs with
  | nil => rfl
  | cons x xs ih => cases x <;> simp [stdLogs, ih]

theorem otelMsgs_append (xs ys : List Event) :
    otelMsgs (xs ++ ys) = otelMsgs xs ++ otelMsgs ys := by
  induction xs with
  | nil => rfl
  | cons x xs ih => cases x <;> simp [otelMsgs, ih]

theorem counterTotal_append (name : String) (xs ys : List Event) :
    counterTotal name (xs ++ ys) = counterTotal name xs + counterTotal name ys := by
  induction xs with
  | nil => simp [counterTotal]
  | cons x xs ih => cases x <;> simp [counterTotal, ih, add_assoc]

theorem loop_initCalls (c : Counter) (l : Logger) (ctx : Ctx) (n : Nat) (w : World) :
    initCalls (loop c l ctx n w).out = initCalls w.out := by
  induction n with
  | zero => rfl
  | succ n ih => rw [loop, tick_out, initCalls_append, ih]; simp [initCalls]

theorem loop_stdLogs (c : Counter) (l : Logger) (ctx : Ctx) (n : Nat) (w : World) :
    stdLogs (loop c l ctx n w).out =
      stdLogs w.out ++ List.replicate n "Info: Counter incremented" := by
  induction n with
  | zero => simp [loop]
  | succ n ih =>
    rw [loop, tick_out, stdLogs_append, ih, List.replicate_add, List.replicate_one]
    simp [stdLogs]

theorem loop_otelMsgs (c : Counter) (l : Logger) (ctx : Ctx) (n : Nat) (w : World) :
    otelMsgs (loop c l ctx n w).out =
      otelMsgs w.out ++ List.replicate n "Counter incremented" := by
  induction n with
  | zero => simp [loop]
  | succ n ih =>
    rw [loop, tick_out, otelMsgs_append, ih, List.replicate_add, List.replicate_one]
    simp [otelMsgs]

theorem loop_no_runDeferred (c : Counter) (l : Logger) (ctx : Ctx) (n : Nat) (w : World)
    (d : Deferred) (h : Event.runDeferred d ∉ w.out) :
    Event.runDeferred d ∉ (loop c l ctx n w).out := by
  induction n with
  | zero => exact h
  | succ n ih => rw [loop, tick_out]; simp [ih]

theorem loop_head (c : Counter) (l : Logger) (ctx : Ctx) (n : Nat) (w : World) (e : Event)
    (h : w.out.head? = some e) : (loop c l ctx n w).out.head? = some e := by
  induction n with
  | zero => exact h
  | succ n ih =>
    rw [loop, tick_out]
    cases hl : (loop c l ctx n w).out with
    | nil => rw [hl] at ih; simp at ih
    | cons x xs => rw [hl] at ih; simpa using ih

/-- No diagnostic of an initializer is the usage message. -/
theorem diagnostic_ne_usage (k : Signal) (e : Err) :
    k.diagnostic ++ e ≠ "Usage: otel-app <endpoint>" := by
  intro h
  have h2 := congrArg (fun s : String => s.data.head?) h
  cases k <;> simp [Signal.diagnostic, String.data_append] at h2

/-- The run of `main` reads nothing of the argument vector but `os.Args[1]`. -/
theorem main_args_irrelevant (env : Env) (a b ep : String) (r t : List String) (n : Nat) :
    main env (a :: ep :: r) n = main env (b :: ep :: t) n := by
  cases h1 : env.otlptracehttpNew ep with
  | error e => rw [main_tracer_err env a ep r n e h1, main_tracer_err env b ep t n e h1]
  | ok e1 =>
    cases h2 : env.otlpmetrichttpNew ep with
    | error e =>
      rw [main_meter_err env a ep r n e1 e h1 h2, main_meter_err env b ep t n e1 e h1 h2]
    | ok e2 =>
      cases h3 : env.otlploghttpNew ep with
      | error e =>
        rw [main_logger_err env a ep r n e1 e2 e h1 h2 h3,
          main_logger_err env b ep t n e1 e2 e h1 h2 h3]
      | ok e3 =>
        rw [main_ready env a ep r n e1 e2 e3 h1 h2 h3,
          main_ready env b ep t n e1 e2 e3 h1 h2 h3]

/-- A run whose initialisation went through: the argument vector holds an
endpoint and the three exporter constructors answered with an exporter. -/
theorem running_inv (env : Env) (osArgs : List String) (n : Nat)
    (h : (main env osArgs n).status = .running) :
    ∃ a ep rest e1 e2 e3, osArgs = a :: ep :: rest ∧ env.otlptracehttpNew ep = .ok e1 ∧
      env.otlpmetrichttpNew ep = .ok e2 ∧ env.otlploghttpNew ep = .ok e3 := by
  match osArgs, h with
  | [], h => rw [main_short env [] n (by simp)] at h; simp at h
  | [a], h => rw [main_short env [a] n (by simp)] at h; simp at h
  | a :: ep :: rest, h =>
    refine ⟨a, ep, rest, ?_⟩
    cases h1 : env.otlptracehttpNew ep with
    | error e => rw [main_tracer_err env a ep rest n e h1] at h; simp at h
    | ok e1 =>
      cases h2 : env.otlpmetrichttpNew ep with
      | error e => rw [main_meter_err env a ep rest n e1 e h1 h2] at h; simp at h
      | ok e2 =>
        cases h3 : env.otlploghttpNew ep with
        | error e => rw [main_logger_err env a ep rest n e1 e2 e h1 h2 h3] at h; simp at h
        | ok e3 => exact ⟨e1, e2, e3, rfl, rfl, rfl, rfl⟩

/-- An argument vector with an endpoint, taken apart. -/
theorem args_split (osArgs : List String) (h : 2 ≤ osArgs.length) :
    ∃ a rest, osArgs = a :: osArgs.get ⟨1, h⟩ :: rest := by
  match osArgs, h with
  | a :: ep :: rest, _ => exact ⟨a, rest, rfl⟩

/-! ## Claims -/

/-- C1: with no positional argument (`len(os.Args) < 2`) the process prints
the usage message and exits with status 1, whatever the libraries would
answer and however long it is observed; no initializer was called (no
exporter construction in the trace) and no process-wide default was set. -/
theorem usage_exit_before_init (env : Env) (osArgs : List String) (n : Nat)
    (h : osArgs.length < 2) :
    (main env osArgs n).world.out = [.stdLog "Usage: otel-app <endpoint>", .osExit 1] ∧
    (main env osArgs n).status = .exited 1 ∧
    initCalls (main env osArgs n).world.out = [] ∧
    (main env osArgs n).world.globals = World.start.globals ∧
    (main env osArgs n).defers = [] := by
  rw [main_short env osArgs n h]
  simp [initCalls, World.start]

/-- The argument vector holding only the program name. -/
theorem usage_exit_before_init_witness :
    ["otel-app"].length < 2 ∧
    (main envOk ["otel-app"] 7).world.out = [.stdLog "Usage: otel-app <endpoint>", .osExit 1] ∧
    (main envOk ["otel-app"] 7).status = .exited 1 ∧
    initCalls (main envOk ["otel-app"] 7).world.out = [] ∧
    (main envOk ["otel-app"] 7).world.globals = World.start.globals ∧
    (main envOk ["otel-app"] 7).defers = [] :=
  ⟨by decide, usage_exit_before_init envOk ["otel-app"] 7 (by decide)⟩

/-- C2: with an endpoint present, the initializers are called in the order
tracer, meter, logger.  If the one for signal `k` is the first to fail, with
error `e`, the process exits with status 1, the only message printed is the
diagnostic of that component followed by `e`, the initializers called are
exactly those up to `k`, and no event of the emission loop occurs.  If none
fails, each of the three was called exactly once, in that order, and the
process is running. -/
theorem init_order_and_fatal (env : Env) (osArgs : List String) (n : Nat)
    (h : 2 ≤ osArgs.length) :
    (∀ k e, env.exporterNew k (osArgs.get ⟨1, h⟩) = .error e →
      (∀ j, j.order < k.order → ∃ x, env.exporterNew j (osArgs.get ⟨1, h⟩) = .ok x) →
      (main env osArgs n).status = .exited 1 ∧
      stdLogs (main env osArgs n).world.out = [k.diagnostic ++ e] ∧
      initCalls (main env osArgs n).world.out = k.upTo.map (fun s => (s, osArgs.get ⟨1, h⟩)) ∧
      (∀ ev ∈ (main env osArgs n).world.out, ev.isEmission = false) ∧
      Event.newTicker 30 ∉ (main env osArgs n).world.out) ∧
    ((∀ j, ∃ x, env.exporterNew j (osArgs.get ⟨1, h⟩) = .ok x) →
      (main env osArgs n).status = .running ∧
      initCalls (main env osArgs n).world.out =
        [(.trace, osArgs.get ⟨1, h⟩), (.metric, osArgs.get ⟨1, h⟩), (.log, osArgs.get ⟨1, h⟩)]) := by
  obtain ⟨a, rest, hargs⟩ := args_split osArgs h
  generalize osArgs.get ⟨1, h⟩ = ep at hargs ⊢
  subst hargs
  constructor
  · intro k e hk hprev
    cases k with
    | trace =>
      rw [main_tracer_err env a ep rest n e hk]
      simp [stdLogs, initCalls, Signal.diagnostic, Signal.upTo, Event.isEmission]
    | metric =>
      obtain ⟨e1, h1⟩ := hprev .trace (by decide)
      rw [main_meter_err env a ep rest n e1 e h1 hk]
      simp [stdLogs, initCalls, Signal.diagnostic, Signal.upTo, Event.isEmission]
    | log =>
      obtain ⟨e1, h1⟩ := hprev .trace (by decide)
      obtain ⟨e2, h2⟩ := hprev .metric (by decide)
      rw [main_logger_err env a ep rest n e1 e2 e h1 h2 hk]
      simp [stdLogs, initCalls, Signal.diagnostic, Signal.upTo, Event.isEmission]
  · intro hall
    obtain ⟨e1, h1⟩ := hall .trace
    obtain ⟨e2, h2⟩ := hall .metric
    obtain ⟨e3, h3⟩ := hall .log
    rw [main_ready env a ep rest n e1 e2 e3 h1 h2 h3]
    simp [loop_initCalls, readyWorld, initCalls]

/-- A run whose metric exporter cannot be built, and one where all three can. -/
theorem init_order_and_fatal_witness :
    2 ≤ ["otel-app", "collector:4318"].length ∧
    ((main envBadMeter ["otel-app", "collector:4318"] 4).status = .exited 1 ∧
     stdLogs (main envBadMeter ["otel-app", "collector:4318"] 4).world.out =
       ["failed to initialize meter: invalid endpoint"] ∧
     initCalls (main envBadMeter ["otel-app", "collector:4318"] 4).world.out =
       [(.trace, "collector:4318"), (.metric, "collector:4318")]) ∧
    ((main envOk ["otel-app", "collector:4318"] 4).status = .running ∧
     initCalls (main envOk ["otel-app", "collector:4318"] 4).world.out =
       [(.trace, "collector:4318"), (.metric, "collector:4318"), (.log, "collector:4318")]) := by
  refine ⟨by decide, ?_, ?_⟩
  · have hb := (init_order_and_fatal envBadMeter ["otel-app", "collector:4318"] 4
      (by decide)).1 .metric "invalid endpoint" rfl
      (fun j hj => by cases j <;> first | exact ⟨_, rfl⟩ | exact absurd hj (by decide))
    exact ⟨hb.1, hb.2.1, hb.2.2.1⟩
  · exact (init_order_and_fatal envOk ["otel-app", "collector:4318"] 4 (by decide)).2
      (fun j => by cases j <;> exact ⟨_, rfl⟩)

/-- C3: after a successful initialisation every tick appends exactly five
events: one start of a span named "IncrementCounter" (on the installed tracer
provider, from the background context), one increment of 1 on the counter
"my_custom_counter", one line on the standard logger, one info-level record
"Counter incremented" on the OpenTelemetry logger, and the end of that span,
in this order.  The increment and the record carry the context returned by
the span start, which holds that tick's span; the standard-logger line has no
context. -/
theorem tick_signals (env : Env) (osArgs : List String) (n : Nat)
    (h : (main env osArgs 0).status = .running) :
    ∃ (tp : TracerProvider) (counter : Counter) (logger : Logger) (ctx2 : Ctx),
      (main env osArgs n).world.globals.tracerProvider = some tp ∧
      counter.name = "my_custom_counter" ∧
      ctx2 = .withSpan .Background ⟨n⟩ ∧ ctx2.span? = some ⟨n⟩ ∧
      (main env osArgs (n + 1)).world.out = (main env osArgs n).world.out ++
        [.spanStart (some tp) "dummy-otel-app" .Background "IncrementCounter" ⟨n⟩,
         .counterAdd counter ctx2 1,
         .stdLog "Info: Counter incremented",
         .otelLog logger .info ctx2 "Counter incremented",
         .spanEnd ⟨n⟩] := by
  obtain ⟨a, ep, rest, e1, e2, e3, rfl, h1, h2, h3⟩ := running_inv env osArgs 0 h
  refine ⟨⟨fixedResource env, e1⟩, ⟨⟨fixedResource env, e2⟩, "dummy-otel-app",
    "my_custom_counter"⟩, ⟨"dummy-otel-app", ⟨fixedResource env, e3⟩⟩,
    .withSpan .Background ⟨n⟩, ?_, rfl, rfl, rfl, ?_⟩
  · rw [main_ready env a ep rest n e1 e2 e3 h1 h2 h3]
    simp [loop_globals, readyWorld]
  · rw [main_ready env a ep rest n e1 e2 e3 h1 h2 h3,
      main_ready env a ep rest (n + 1) e1 e2 e3 h1 h2 h3]
    simp only [loop]
    rw [tick_out, loop_globals, loop_spans]
    simp [readyWorld]

/-- The third tick of a run against a collector that accepts everything. -/
theorem tick_signals_witness :
    (main envOk ["otel-app", "collector:4318"] 0).status = .running ∧
    ∃ (tp : TracerProvider) (counter : Counter) (logger : Logger) (ctx2 : Ctx),
      (main envOk ["otel-app", "collector:4318"] 2).world.globals.tracerProvider = some tp ∧
      counter.name = "my_custom_counter" ∧
      ctx2 = .withSpan .Background ⟨2⟩ ∧ ctx2.span? = some ⟨2⟩ ∧
      (main envOk ["otel-app", "collector:4318"] (2 + 1)).world.out =
        (main envOk ["otel-app", "collector:4318"] 2).world.out ++
        [.spanStart (some tp) "dummy-otel-app" .Background "IncrementCounter" ⟨2⟩,
         .counterAdd counter ctx2 1,
         .stdLog "Info: Counter incremented",
         .otelLog logger .info ctx2 "Counter incremented",
         .spanEnd ⟨2⟩] :=
  ⟨rfl, tick_signals envOk ["otel-app", "collector:4318"] 2 rfl⟩

/-- C4: after a successful initialisation the increments issued on
"my_custom_counter" add up to the number of ticks: 0 before the first tick,
`n` after `n` ticks, and one more after each further tick. -/
theorem counter_equals_ticks (env : Env) (osArgs : List String) (n : Nat)
    (h : (main env osArgs 0).status = .running) :
    counterTotal "my_custom_counter" (main env osArgs 0).world.out = 0 ∧
    counterTotal "my_custom_counter" (main env osArgs n).world.out = n ∧
    counterTotal "my_custom_counter" (main env osArgs (n + 1)).world.out =
      counterTotal "my_custom_counter" (main env osArgs n).world.out + 1 := by
  obtain ⟨a, ep, rest, e1, e2, e3, rfl, h1, h2, h3⟩ := running_inv env osArgs 0 h
  have key : ∀ m : Nat,
      counterTotal "my_custom_counter" (main env (a :: ep :: rest) m).world.out = m := by
    intro m
    rw [main_ready env a ep rest m e1 e2 e3 h1 h2 h3]
    induction m with
    | zero => simp [loop, readyWorld, counterTotal]
    | succ m ih =>
      simp only [loop]
      rw [tick_out, counterTotal_append, ih]
      simp [counterTotal]
  refine ⟨by simpa using key 0, key n, ?_⟩
  rw [key (n + 1), key n]
  push_cast
  rfl

/-- Three and four ticks of a run against a collector that accepts everything. -/
theorem counter_equals_ticks_witness :
    (main envOk ["otel-app", "collector:4318"] 0).status = .running ∧
    counterTotal "my_custom_counter" (main envOk ["otel-app", "collector:4318"] 0).world.out = 0 ∧
    counterTotal "my_custom_counter" (main envOk ["otel-app", "collector:4318"] 3).world.out
      = (3 : Nat) ∧
    counterTotal "my_custom_counter"
        (main envOk ["otel-app", "collector:4318"] (3 + 1)).world.out =
      counterTotal "my_custom_counter"
        (main envOk ["otel-app", "collector:4318"] 3).world.out + 1 :=
  ⟨rfl, counter_equals_ticks envOk ["otel-app", "collector:4318"] 3 rfl⟩

/-- C5: whatever the endpoints, the providers returned by `initTracer`,
`initMeter` and `initLogger` carry one and the same resource: schema URL
`semconv.SchemaURL`, service name "dummy-otel-generator", service version
"0.0.1". -/
theorem resource_identical (env : Env) (ep1 ep2 ep3 : String) (w1 w2 w3 : World)
    (tp : TracerProvider) (mp : MeterProvider) (lp : LoggerProvider)
    (h1 : (initTracer env ep1 w1).1 = .ok tp) (h2 : (initMeter env ep2 w2).1 = .ok mp)
    (h3 : (initLogger env ep3 w3).1 = .ok lp) :
    tp.resource = ⟨env.SchemaURL, [(.ServiceNameKey, "dummy-otel-generator"),
      (.ServiceVersionKey, "0.0.1")]⟩ ∧
    mp.resource = tp.resource ∧ lp.resource = tp.resource := by
  have ht : tp.resource = ⟨env.SchemaURL, [(.ServiceNameKey, "dummy-otel-generator"),
      (.ServiceVersionKey, "0.0.1")]⟩ := by
    unfold initTracer at h1
    cases hx : env.otlptracehttpNew ep1 with
    | error e => simp [hx] at h1
    | ok x =>
      simp only [hx] at h1
      injection h1 with h1
      rw [← h1]; rfl
  have hm : mp.resource = ⟨env.SchemaURL, [(.ServiceNameKey, "dummy-otel-generator"),
      (.ServiceVersionKey, "0.0.1")]⟩ := by
    unfold initMeter at h2
    cases hx : env.otlpmetrichttpNew ep2 with
    | error e => simp [hx] at h2
    | ok x =>
      simp only [hx] at h2
      injection h2 with h2
      rw [← h2]; rfl
  have hl : lp.resource = ⟨env.SchemaURL, [(.ServiceNameKey, "dummy-otel-generator"),
      (.ServiceVersionKey, "0.0.1")]⟩ := by
    unfold initLogger at h3
    cases hx : env.otlploghttpNew ep3 with
    | error e => simp [hx] at h3
    | ok x =>
      simp only [hx] at h3
      injection h3 with h3
      rw [← h3]; rfl
  exact ⟨ht, hm.trans ht.symm, hl.trans ht.symm⟩

/-- The three initializers called with three different endpoints. -/
theorem resource_identical_witness :
    (initTracer envOk "collector:4318" World.start).1 =
      .ok ⟨fixedResource envOk, ⟨1⟩⟩ ∧
    (initMeter envOk "other:4318" World.start).1 = .ok ⟨fixedResource envOk, ⟨2⟩⟩ ∧
    (initLogger envOk "" World.start).1 = .ok ⟨fixedResource envOk, ⟨3⟩⟩ ∧
    (fixedResource envOk = ⟨envOk.SchemaURL, [(.ServiceNameKey, "dummy-otel-generator"),
      (.ServiceVersionKey, "0.0.1")]⟩ ∧
     (⟨fixedResource envOk, ⟨2⟩⟩ : MeterProvider).resource = fixedResource envOk ∧
     (⟨fixedResource envOk, ⟨3⟩⟩ : LoggerProvider).resource = fixedResource envOk) :=
  ⟨rfl, rfl, rfl,
    resource_identical envOk "collector:4318" "other:4318" "" World.start World.start
      World.start ⟨fixedResource envOk, ⟨1⟩⟩ ⟨fixedResource envOk, ⟨2⟩⟩
      ⟨fixedResource envOk, ⟨3⟩⟩ rfl rfl rfl⟩

/-- C6: a run in which `initTracer` succeeds and `initMeter` fails.  The
shutdown of the tracer provider was registered with `defer`, the process ends
through `log.Fatalf`, that is `os.Exit(1)`, and the registered call is still
pending at exit: it never ran.  More generally no run of `main`, on any
arguments and observed for any time, ever runs a deferred call. -/
theorem fatal_exit_skips_shutdown :
    (main envBadMeter ["otel-app", "collector:4318"] 0).status = .exited 1 ∧
    (main envBadMeter ["otel-app", "collector:4318"] 0).defers =
      [.TracerShutdown ⟨fixedResource envBadMeter, ⟨1⟩⟩ .Background] ∧
    (main envBadMeter ["otel-app", "collector:4318"] 0).world.out =
      [.exporterNew .trace "collector:4318",
       .setTracerProvider ⟨fixedResource envBadMeter, ⟨1⟩⟩,
       .setTextMapPropagator ⟨[.TraceContext, .Baggage]⟩,
       .exporterNew .metric "collector:4318",
       .stdLog "failed to initialize meter: invalid endpoint",
       .osExit 1] ∧
    (∀ (env : Env) (osArgs : List String) (n : Nat) (d : Deferred),
      Event.runDeferred d ∉ (main env osArgs n).world.out) := by
  refine ⟨rfl, rfl, rfl, ?_⟩
  intro env osArgs n d
  match osArgs with
  | [] => rw [main_short env [] n (by simp)]; simp
  | [a] => rw [main_short env [a] n (by simp)]; simp
  | a :: ep :: rest =>
    cases h1 : env.otlptracehttpNew ep with
    | error e => rw [main_tracer_err env a ep rest n e h1]; simp
    | ok e1 =>
      cases h2 : env.otlpmetrichttpNew ep with
      | error e => rw [main_meter_err env a ep rest n e1 e h1 h2]; simp
      | ok e2 =>
        cases h3 : env.otlploghttpNew ep with
        | error e => rw [main_logger_err env a ep rest n e1 e2 e h1 h2 h3]; simp
        | ok e3 =>
          rw [main_ready env a ep rest n e1 e2 e3 h1 h2 h3]
          exact loop_no_runDeferred _ _ _ n _ d (by simp [readyWorld])

/-- C7: effect of the initializers on the process-wide defaults.  When its
exporter is built, `initTracer` returns a provider, installs it as the tracer
provider, installs the composite of trace-context and baggage as propagator
and leaves the other defaults as they were; `initMeter` returns a provider,
installs it as the meter provider and leaves the others; `initLogger` returns
a provider and leaves all defaults.  When the exporter constructor fails with
`e`, each returns no provider and the error `e`, with all defaults unchanged.
None of them starts a span. -/
theorem init_global_effects (env : Env) (ep : String) (w : World) :
    (∀ x, env.otlptracehttpNew ep = .ok x →
      ∃ tp, (initTracer env ep w).1 = .ok tp ∧
        (initTracer env ep w).2.globals =
          { w.globals with tracerProvider := some tp,
                           textMapPropagator := some ⟨[.TraceContext, .Baggage]⟩ }) ∧
    (∀ x, env.otlpmetrichttpNew ep = .ok x →
      ∃ mp, (initMeter env ep w).1 = .ok mp ∧
        (initMeter env ep w).2.globals = { w.globals with meterProvider := some mp }) ∧
    (∀ x, env.otlploghttpNew ep = .ok x →
      ∃ lp, (initLogger env ep w).1 = .ok lp ∧ (initLogger env ep w).2.globals = w.globals) ∧
    (∀ e, env.otlptracehttpNew ep = .error e →
      (initTracer env ep w).1 = .error e ∧ (initTracer env ep w).2.globals = w.globals) ∧
    (∀ e, env.otlpmetrichttpNew ep = .error e →
      (initMeter env ep w).1 = .error e ∧ (initMeter env ep w).2.globals = w.globals) ∧
    (∀ e, env.otlploghttpNew ep = .error e →
      (initLogger env ep w).1 = .error e ∧ (initLogger env ep w).2.globals = w.globals) ∧
    ((initTracer env ep w).2.spans = w.spans ∧ (initMeter env ep w).2.spans = w.spans ∧
      (initLogger env ep w).2.spans = w.spans) := by
  refine ⟨?_, ?_, ?_, ?_, ?_, ?_, ?_, ?_, ?_⟩
  · intro x hx
    exact ⟨⟨fixedResource env, x⟩,
      by simp [initTracer, hx, fixedResource, serviceName, serviceVersion],
      by simp [initTracer, hx, SetTracerProvider, SetTextMapPropagator, World.emit,
        fixedResource, serviceName, serviceVersion]⟩
  · intro x hx
    exact ⟨⟨fixedResource env, x⟩,
      by simp [initMeter, hx, fixedResource, serviceName, serviceVersion],
      by simp [initMeter, hx, SetMeterProvider, World.emit, fixedResource, serviceName,
        serviceVersion]⟩
  · intro x hx
    exact ⟨⟨fixedResource env, x⟩,
      by simp [initLogger, hx, fixedResource, serviceName, serviceVersion],
      by simp [initLogger, hx, World.emit]⟩
  · intro e he
    simp [initTracer, he, World.emit]
  · intro e he
    simp [initMeter, he, World.emit]
  · intro e he
    simp [initLogger, he, World.emit]
  · unfold initTracer
    cases env.otlptracehttpNew ep <;>
      simp [SetTracerProvider, SetTextMapPropagator, World.emit]
  · unfold initMeter
    cases env.otlpmetrichttpNew ep <;> simp [SetMeterProvider, World.emit]
  · unfold initLogger
    cases env.otlploghttpNew ep <;> simp [World.emit]

/-- The initializers on a fresh process, with and without a working trace exporter. -/
theorem init_global_effects_witness :
    (∃ tp, (initTracer envOk "collector:4318" World.start).1 = .ok tp ∧
      (initTracer envOk "collector:4318" World.start).2.globals =
        ⟨some tp, some ⟨[.TraceContext, .Baggage]⟩, none, none⟩) ∧
    (∃ mp, (initMeter envOk "collector:4318" World.start).1 = .ok mp ∧
      (initMeter envOk "collector:4318" World.start).2.globals = ⟨none, none, some mp, none⟩) ∧
    (∃ lp, (initLogger envOk "collector:4318" World.start).1 = .ok lp ∧
      (initLogger envOk "collector:4318" World.start).2.globals = ⟨none, none, none, none⟩) ∧
    ((initTracer envBadTracer "collector:4318" World.start).1 = .error "invalid endpoint" ∧
      (initTracer envBadTracer "collector:4318" World.start).2.globals =
        ⟨none, none, none, none⟩) := by
  have hok := init_global_effects envOk "collector:4318" World.start
  have hbad := init_global_effects envBadTracer "collector:4318" World.start
  exact ⟨hok.1 ⟨1⟩ rfl, hok.2.1 ⟨2⟩ rfl, hok.2.2.1 ⟨3⟩ rfl, hbad.2.2.2.1 "invalid endpoint" rfl⟩

/-- C8, as stated, fails: with two positional arguments the argument vector
has three entries, not two, and `main` still starts initialisation with
`os.Args[1]` as the endpoint, prints no usage message and reaches the loop. -/
theorem extra_args_start_init :
    ["otel-app", "collector:4318", "extra"].length ≠ 2 ∧
    (main envOk ["otel-app", "collector:4318", "extra"] 0).world.out.head? =
      some (.exporterNew .trace "collector:4318") ∧
    initCalls (main envOk ["otel-app", "collector:4318", "extra"] 0).world.out =
      [(.trace, "collector:4318"), (.metric, "collector:4318"), (.log, "collector:4318")] ∧
    stdLogs (main envOk ["otel-app", "collector:4318", "extra"] 0).world.out = [] ∧
    (main envOk ["otel-app", "collector:4318", "extra"] 0).status = .running := by
  refine ⟨by decide, rfl, rfl, rfl, rfl⟩

/-- C8, amended: `main` requires at least one positional argument.  With
`len(os.Args) < 2` the run is the usage message and exit status 1, with no
initializer called.  With `len(os.Args) >= 2` the first thing the run does is
to build the trace exporter for `os.Args[1]`, the usage message is never
printed, and the run is the same whatever `os.Args[0]` and the arguments
after the first are. -/
theorem endpoint_guard (env : Env) (osArgs : List String) (n : Nat) :
    (osArgs.length < 2 →
      (main env osArgs n).world.out = [.stdLog "Usage: otel-app <endpoint>", .osExit 1] ∧
      (main env osArgs n).status = .exited 1) ∧
    (∀ h : 2 ≤ osArgs.length,
      (main env osArgs n).world.out.head? =
        some (.exporterNew .trace (osArgs.get ⟨1, h⟩)) ∧
      "Usage: otel-app <endpoint>" ∉ stdLogs (main env osArgs n).world.out ∧
      ∀ a rest, main env osArgs n = main env (a :: osArgs.get ⟨1, h⟩ :: rest) n) := by
  constructor
  · intro h
    rw [main_short env osArgs n h]
    exact ⟨rfl, rfl⟩
  · intro h
    obtain ⟨a, rest, hargs⟩ := args_split osArgs h
    generalize osArgs.get ⟨1, h⟩ = ep at hargs ⊢
    subst hargs
    refine ⟨?_, ?_, fun b t => main_args_irrelevant env a b ep rest t n⟩
    · cases h1 : env.otlptracehttpNew ep with
      | error e => rw [main_tracer_err env a ep rest n e h1]; rfl
      | ok e1 =>
        cases h2 : env.otlpmetrichttpNew ep with
        | error e => rw [main_meter_err env a ep rest n e1 e h1 h2]; rfl
        | ok e2 =>
          cases h3 : env.otlploghttpNew ep with
          | error e => rw [main_logger_err env a ep rest n e1 e2 e h1 h2 h3]; rfl
          | ok e3 =>
            rw [main_ready env a ep rest n e1 e2 e3 h1 h2 h3]
            exact loop_head _ _ _ n _ _ rfl
    · cases h1 : env.otlptracehttpNew ep with
      | error e =>
        rw [main_tracer_err env a ep rest n e h1]
        simpa [stdLogs] using (diagnostic_ne_usage .trace e).symm
      | ok e1 =>
        cases h2 : env.otlpmetrichttpNew ep with
        | error e =>
          rw [main_meter_err env a ep rest n e1 e h1 h2]
          simpa [stdLogs] using (diagnostic_ne_usage .metric e).symm
        | ok e2 =>
          cases h3 : env.otlploghttpNew ep with
          | error e =>
            rw [main_logger_err env a ep rest n e1 e2 e h1 h2 h3]
            simpa [stdLogs] using (diagnostic_ne_usage .log e).symm
          | ok e3 =>
            rw [main_ready env a ep rest n e1 e2 e3 h1 h2 h3, loop_stdLogs]
            simp [readyWorld, stdLogs]

/-- An empty argument vector, and one with two positional arguments. -/
theorem endpoint_guard_witness :
    ([] : List String).length < 2 ∧
    ((main envOk [] 5).world.out = [.stdLog "Usage: otel-app <endpoint>", .osExit 1] ∧
      (main envOk [] 5).status = .exited 1) ∧
    2 ≤ ["otel-app", "collector:4318", "extra"].length ∧
    (main envBadLogger ["otel-app", "collector:4318", "extra"] 5).world.out.head? =
      some (.exporterNew .trace "collector:4318") ∧
    "Usage: otel-app <endpoint>" ∉
      stdLogs (main envBadLogger ["otel-app", "collector:4318", "extra"] 5).world.out ∧
    main envBadLogger ["otel-app", "collector:4318", "extra"] 5 =
      main envBadLogger ["otel-app", "collector:4318"] 5 := by
  have h := (endpoint_guard envBadLogger ["otel-app", "collector:4318", "extra"] 5).2
    (by decide)
  exact ⟨by decide, (endpoint_guard envOk [] 5).1 (by decide), by decide, h.1, h.2.1,
    h.2.2 "otel-app" []⟩

/-- C9, as stated, fails: in a run against a collector that accepts
everything, observed after three ticks, `counter.Add` was called three times
and handed `main` no error result to drop.  The only result `main` dropped is
the one of the creation of the counter, dropped before the first tick; no
dropped result comes from a call of the loop. -/
theorem add_hands_back_no_error :
    addCalls (main envOk ["otel-app", "collector:4318"] 3).world.out =
      [("my_custom_counter", 1), ("my_custom_counter", 1), ("my_custom_counter", 1)] ∧
    (main envOk ["otel-app", "collector:4318"] 3).discarded =
      [(.int64Counter ⟨fixedResource envOk, ⟨2⟩⟩ "dummy-otel-app" "my_custom_counter",
        none)] ∧
    (main envOk ["otel-app", "collector:4318"] 3).discarded =
      (main envOk ["otel-app", "collector:4318"] 0).discarded ∧
    (∀ d ∈ (main envOk ["otel-app", "collector:4318"] 3).discarded,
      d.1.isEmission = false) := by
  have h3 : (main envOk ["otel-app", "collector:4318"] 3).discarded =
      [(.int64Counter ⟨fixedResource envOk, ⟨2⟩⟩ "dummy-otel-app" "my_custom_counter",
        none)] := rfl
  have h0 : (main envOk ["otel-app", "collector:4318"] 0).discarded =
      [(.int64Counter ⟨fixedResource envOk, ⟨2⟩⟩ "dummy-otel-app" "my_custom_counter",
        none)] := rfl
  refine ⟨rfl, h3, h3.trans h0.symm, ?_⟩
  rw [h3]
  decide

/-- C9, amended: no error is discarded at the emission site.  After a
successful initialisation the only error result `main` has dropped, at any
time, is the one of
`Meter("dummy-otel-app").Int64Counter("my_custom_counter")`, dropped before
the loop is entered; no tick adds to it.  In every tick the increment is
followed by the standard-logger line, the record "Counter incremented" and the
end of the span, and the process keeps running. -/
theorem no_error_dropped_in_tick (env : Env) (osArgs : List String) (n : Nat)
    (h : (main env osArgs 0).status = .running) :
    ∃ (mp : MeterProvider) (logger : Logger) (start : Event),
      (main env osArgs n).discarded =
        [(.int64Counter mp "dummy-otel-app" "my_custom_counter",
          env.Int64CounterErr "dummy-otel-app" "my_custom_counter")] ∧
      (main env osArgs (n + 1)).discarded = (main env osArgs 0).discarded ∧
      (main env osArgs (n + 1)).status = .running ∧
      (main env osArgs (n + 1)).world.out = (main env osArgs n).world.out ++
        [start,
         .counterAdd ⟨mp, "dummy-otel-app", "my_custom_counter"⟩
           (.withSpan .Background ⟨n⟩) 1,
         .stdLog "Info: Counter incremented",
         .otelLog logger .info (.withSpan .Background ⟨n⟩) "Counter incremented",
         .spanEnd ⟨n⟩] := by
  obtain ⟨a, ep, rest, e1, e2, e3, rfl, h1, h2, h3⟩ := running_inv env osArgs 0 h
  refine ⟨⟨fixedResource env, e2⟩, ⟨"dummy-otel-app", ⟨fixedResource env, e3⟩⟩,
    .spanStart (some ⟨fixedResource env, e1⟩) "dummy-otel-app" .Background
      "IncrementCounter" ⟨n⟩, ?_, ?_, ?_, ?_⟩
  · rw [main_ready env a ep rest n e1 e2 e3 h1 h2 h3]
  · rw [main_ready env a ep rest (n + 1) e1 e2 e3 h1 h2 h3,
      main_ready env a ep rest 0 e1 e2 e3 h1 h2 h3]
  · rw [main_ready env a ep rest (n + 1) e1 e2 e3 h1 h2 h3]
  · rw [main_ready env a ep rest n e1 e2 e3 h1 h2 h3,
      main_ready env a ep rest (n + 1) e1 e2 e3 h1 h2 h3]
    simp only [loop]
    rw [tick_out, loop_globals, loop_spans]
    simp [readyWorld]

/-- Two and three ticks of a run against a collector that accepts everything. -/
theorem no_error_dropped_in_tick_witness :
    (main envOk ["otel-app", "collector:4318"] 0).status = .running ∧
    ∃ (mp : MeterProvider) (logger : Logger) (start : Event),
      (main envOk ["otel-app", "collector:4318"] 2).discarded =
        [(.int64Counter mp "dummy-otel-app" "my_custom_counter",
          envOk.Int64CounterErr "dummy-otel-app" "my_custom_counter")] ∧
      (main envOk ["otel-app", "collector:4318"] (2 + 1)).discarded =
        (main envOk ["otel-app", "collector:4318"] 0).discarded ∧
      (main envOk ["otel-app", "collector:4318"] (2 + 1)).status = .running ∧
      (main envOk ["otel-app", "collector:4318"] (2 + 1)).world.out =
        (main envOk ["otel-app", "collector:4318"] 2).world.out ++
        [start,
         .counterAdd ⟨mp, "dummy-otel-app", "my_custom_counter"⟩
           (.withSpan .Background ⟨2⟩) 1,
         .stdLog "Info: Counter incremented",
         .otelLog logger .info (.withSpan .Background ⟨2⟩) "Counter incremented",
         .spanEnd ⟨2⟩] :=
  ⟨rfl, no_error_dropped_in_tick envOk ["otel-app", "collector:4318"] 2 rfl⟩

/-- C10, as stated, fails: in a tick the line handed to the standard logger
is "Info: Counter incremented", the record sent through the OpenTelemetry
logger has the message "Counter incremented"; the two texts differ. -/
theorem std_line_differs_from_record :
    stdLogs (main envOk ["otel-app", "collector:4318"] 1).world.out =
      ["Info: Counter incremented"] ∧
    otelMsgs (main envOk ["otel-app", "collector:4318"] 1).world.out =
      ["Counter incremented"] ∧
    stdLogs (main envOk ["otel-app", "collector:4318"] 1).world.out ≠
      otelMsgs (main envOk ["otel-app", "collector:4318"] 1).world.out := by
  refine ⟨rfl, rfl, ?_⟩
  decide

/-- C10, amended: in every tick the line handed to the standard logger is the
message of that tick's OpenTelemetry record, "Counter incremented", with
"Info: " put in front; over a whole run the standard-logger lines are the
record messages, in order, each with that head. -/
theorem std_line_is_headed_record (env : Env) (osArgs : List String) (n : Nat)
    (h : (main env osArgs 0).status = .running) :
    (∃ evs, (main env osArgs (n + 1)).world.out = (main env osArgs n).world.out ++ evs ∧
      otelMsgs evs = ["Counter incremented"] ∧
      stdLogs evs = ["Info: " ++ "Counter incremented"]) ∧
    otelMsgs (main env osArgs n).world.out = List.replicate n "Counter incremented" ∧
    stdLogs (main env osArgs n).world.out =
      (otelMsgs (main env osArgs n).world.out).map (fun m => "Info: " ++ m) := by
  obtain ⟨a, ep, rest, e1, e2, e3, rfl, h1, h2, h3⟩ := running_inv env osArgs 0 h
  have hinfo : "Info: " ++ "Counter incremented" = "Info: Counter incremented" := by decide
  refine ⟨?_, ?_, ?_⟩
  · rw [main_ready env a ep rest n e1 e2 e3 h1 h2 h3,
      main_ready env a ep rest (n + 1) e1 e2 e3 h1 h2 h3]
    simp only [loop]
    rw [tick_out]
    exact ⟨_, rfl, by simp [otelMsgs], by simp [stdLogs, hinfo]⟩
  · rw [main_ready env a ep rest n e1 e2 e3 h1 h2 h3, loop_otelMsgs]
    simp [readyWorld, otelMsgs]
  · rw [main_ready env a ep rest n e1 e2 e3 h1 h2 h3, loop_otelMsgs, loop_stdLogs]
    simp [readyWorld, otelMsgs, stdLogs, hinfo]

/-- Two and three ticks of a run against a collector that accepts everything. -/
theorem std_line_is_headed_record_witness :
    (main envOk ["otel-app", "collector:4318"] 0).status = .running ∧
    (∃ evs, (main envOk ["otel-app", "collector:4318"] (2 + 1)).world.out =
        (main envOk ["otel-app", "collector:4318"] 2).world.out ++ evs ∧
      otelMsgs evs = ["Counter incremented"] ∧
      stdLogs evs = ["Info: " ++ "Counter incremented"]) ∧
    otelMsgs (main envOk ["otel-app", "collector:4318"] 2).world.out =
      List.replicate 2 "Counter incremented" ∧
    stdLogs (main envOk ["otel-app", "collector:4318"] 2).world.out =
      (otelMsgs (main envOk ["otel-app", "collector:4318"] 2).world.out).map
        (fun m => "Info: " ++ m) :=
  ⟨rfl, std_line_is_headed_record envOk ["otel-app", "collector:4318"] 2 rfl⟩

end DummyOtel
